import Mathlib

/-!
Shallow embedding of the provider abstraction layer of the athena-ai
repository, centred on the Anthropic adapter
(`src/llm/src/anthropic/mod.rs`, `src/llm/src/anthropic/types.rs`) and the
shared message model of `agent_core` (`src/core/src/lib.rs`).

Pure translation code (message/role conversion, request assembly, the
error-string construction of `send_message`) is embedded as executable Lean
functions. The HTTP transport is an external collaborator; it is embedded
as an oracle function from the assembled request to a transport outcome,
and `send_message` records the outbound requests it issues so that
claims about "exactly one request per invocation" are statements about the
recorded trace.
-/

/-- The speaker category of a conversation turn, from
`agent_core::Role` (re-exported by `src/core/src/lib.rs`). -/
inductive Role where
  | System
  | User
  | Assistant
deriving DecidableEq, Repr

/-- A uniform conversation turn, from `agent_core::Message`:
a role tag plus textual content. -/
structure Message where
  role : Role
  content : String
deriving DecidableEq, Repr

/-- Whether a message carries the System role. -/
def Role.isSystem : Role → Bool
  | Role.System => true
  | _ => false

/-- Anthropic API message format, from
`src/llm/src/anthropic/types.rs` (`AnthropicMessage`): a role string
("user" / "assistant") plus content. -/
structure AnthropicMessage where
  role : String
  content : String
deriving DecidableEq, Repr

/-- Request structure for the Anthropic Messages API, from
`src/llm/src/anthropic/types.rs` (`MessagesRequest`). The `system` field
carries `#[serde(skip_serializing_if = "Option::is_none")]`: it is left out
of the serialized body exactly when it is `none` (see `requestFields`). -/
structure MessagesRequest where
  model : String
  messages : List AnthropicMessage
  system : Option String
  temperature : Float
  max_tokens : Nat

/-- Content block of an Anthropic response, from
`src/llm/src/anthropic/types.rs` (`ContentBlock`). -/
structure ContentBlock where
  content_type : String
  text : String
deriving DecidableEq, Repr

/-- Response structure of the Anthropic Messages API, from
`src/llm/src/anthropic/types.rs` (`MessagesResponse`). -/
structure MessagesResponse where
  id : String
  response_type : String
  role : String
  content : List ContentBlock
  model : String
  stop_reason : Option String
deriving DecidableEq, Repr

/-- The Anthropic provider, from `src/llm/src/anthropic/mod.rs`
(`AnthropicProvider`). The `ApiClient` collaborator is reduced to the one
datum the adapter reads from it, its configured timeout (used only at the
transport boundary). -/
structure AnthropicProvider where
  api_key : String
  model : String
  temperature : Float
  max_tokens : Nat
  client_timeout_ms : Nat

/-- The shared framework error of `agent_core`. Its defining module
(`error.rs`) is not among the sources; the adapter code visibly constructs
only `AgentError::LLMProvider(String)`, embedded as `LLMProvider`.
Modelled from the spec: the framework error type has further variants not
exercised by this adapter, abstracted here as a single `otherVariant`
constructor so that "which constructor was used" is a meaningful question. -/
inductive AgentError where
  | LLMProvider (msg : String)
  | otherVariant (tag : String)
deriving DecidableEq, Repr

/-- Whether an error uses the generic `LLMProvider` constructor. -/
def AgentError.isLLMProvider : AgentError → Bool
  | AgentError.LLMProvider _ => true
  | _ => false

/-- Convert a framework `Message` to the Anthropic message format, from
`AnthropicProvider::convert_message` (mod.rs lines 43-55). System messages
yield `none`: they go in the separate `system` field. -/
def convert_message (message : Message) : Option AnthropicMessage :=
  match message.role with
  | Role.System => none
  | Role.User => some { role := "user", content := message.content }
  | Role.Assistant => some { role := "assistant", content := message.content }

/-- The loop body of `AnthropicProvider::convert_messages`
(mod.rs lines 65-82), with the mutable locals `system_message` and
`anthropic_messages` made explicit accumulator arguments. A System message
is appended to the system accumulator (joined by a blank line when one is
already present); any other message is pushed through `convert_message`. -/
def convertMessagesLoop (sys : Option String) (acc : List AnthropicMessage) :
    List Message → Option String × List AnthropicMessage
  | [] => (sys, acc)
  | message :: rest =>
    match message.role with
    | Role.System =>
      convertMessagesLoop
        (match sys with
         | some existing => some (existing ++ "\n\n" ++ message.content)
         | none => some message.content)
        acc rest
    | _ =>
      match convert_message message with
      | some anthropic_msg => convertMessagesLoop sys (acc ++ [anthropic_msg]) rest
      | none => convertMessagesLoop sys acc rest

/-- Convert a framework message sequence to Anthropic format, from
`AnthropicProvider::convert_messages` (mod.rs lines 61-85). Returns the
optional combined system text and the translated turn list. -/
def convert_messages (messages : List Message) : Option String × List AnthropicMessage :=
  convertMessagesLoop none [] messages

example : convert_messages [⟨Role.System, "be concise"⟩, ⟨Role.User, "hi"⟩] =
    (some "be concise", [⟨"user", "hi"⟩]) := by decide

example : convert_messages [⟨Role.System, "a"⟩, ⟨Role.User, "u"⟩, ⟨Role.System, "b"⟩] =
    (some "a\n\nb", [⟨"user", "u"⟩]) := by decide

example : convert_messages [⟨Role.System, ""⟩, ⟨Role.System, ""⟩] =
    (some "\n\n", []) := by decide

/-- The information `send_message` reads off a `reqwest` transport-stage
error (mod.rs lines 117-128): whether it was a timeout, whether it was a
connect failure, the status attached to the error, if any, and the text
its `Display` implementation renders (interpolated by the `format!` calls). -/
structure TransportError where
  is_timeout : Bool
  is_connect : Bool
  status : Option Nat
  description : String
deriving DecidableEq, Repr

/-- Equality on `Except` values is decidable when it is on both components. -/
instance exceptDecEq {ε α : Type} [DecidableEq ε] [DecidableEq α] :
    DecidableEq (Except ε α) := fun a b =>
  match a, b with
  | Except.error x, Except.error y =>
    if h : x = y then Decidable.isTrue (by rw [h])
    else Decidable.isFalse (by intro hc; cases hc; exact h rfl)
  | Except.error _, Except.ok _ => Decidable.isFalse (by intro hc; cases hc)
  | Except.ok _, Except.error _ => Decidable.isFalse (by intro hc; cases hc)
  | Except.ok x, Except.ok y =>
    if h : x = y then Decidable.isTrue (by rw [h])
    else Decidable.isFalse (by intro hc; cases hc; exact h rfl)

/-- A received HTTP response as `send_message` consumes it: the status
code, the outcome of `response.text()` (`none` when reading the body
fails), and the outcome of `response.json::<MessagesResponse>()` (an error
carries the deserializer's rendered message). The body is consumed at most
once, by whichever of the two the status check selects. -/
structure HttpResponse where
  status : Nat
  textResult : Option String
  jsonResult : Except String MessagesResponse
deriving DecidableEq, Repr

/-- Outcome of the outbound `client.post(url)...send().await` call:
either a transport-stage error or a received response. -/
inductive HttpResult where
  | transportError (e : TransportError)
  | response (r : HttpResponse)
deriving DecidableEq, Repr

/-- `reqwest::StatusCode::is_success`: the 2xx range. -/
def isSuccessStatus (s : Nat) : Bool :=
  200 ≤ s && s < 300

/-- Canonical reason phrase of an HTTP status code, as `reqwest` renders
it (the part of `StatusCode`'s `Display` after the number). -/
def canonicalReason (s : Nat) : String :=
  match s with
  | 400 => "Bad Request"
  | 401 => "Unauthorized"
  | 403 => "Forbidden"
  | 404 => "Not Found"
  | 429 => "Too Many Requests"
  | 500 => "Internal Server Error"
  | 502 => "Bad Gateway"
  | 503 => "Service Unavailable"
  | _ => "<unknown status code>"

/-- `Display` of a `reqwest::StatusCode`, as interpolated by
`format!("Anthropic API HTTP {} error: {}", status, error_text)`:
the numeric code followed by the canonical reason phrase. -/
def statusDisplay (s : Nat) : String :=
  toString s ++ " " ++ canonicalReason s

/-- Error translation of a transport-stage failure, from the
`map_err` closure of `send_message` (mod.rs lines 117-129): timeout,
connect failure, error-attached 401, error-attached 429, then the generic
request failure, all constructed as `AgentError::LLMProvider` strings. -/
def mapSendError (e : TransportError) : AgentError :=
  if e.is_timeout then
    AgentError.LLMProvider ("Anthropic API request timeout: " ++ e.description)
  else if e.is_connect then
    AgentError.LLMProvider ("Anthropic API connection error: " ++ e.description)
  else if e.status = some 401 then
    AgentError.LLMProvider "Anthropic API authentication failed: Invalid API key"
  else if e.status = some 429 then
    AgentError.LLMProvider "Anthropic API rate limit exceeded"
  else
    AgentError.LLMProvider ("Anthropic API request failed: " ++ e.description)

/-- Post-call part of `send_message` (mod.rs lines 117-157): translate the
outcome of the outbound call into the uniform result. A transport error
goes through `mapSendError`; a response with a non-success status becomes
the generic HTTP error (reading the body text, with the fallback string of
line 137); a success status is deserialized, and the text of the first
content block is extracted, an empty content list giving the
no-content error. -/
def handleOutcome (outcome : HttpResult) : Except AgentError String :=
  match outcome with
  | HttpResult.transportError e => Except.error (mapSendError e)
  | HttpResult.response r =>
    if !(isSuccessStatus r.status) then
      let error_text := r.textResult.getD "Unable to read error response"
      Except.error (AgentError.LLMProvider
        ("Anthropic API HTTP " ++ statusDisplay r.status ++ " error: " ++ error_text))
    else
      match r.jsonResult with
      | Except.error e => Except.error (AgentError.LLMProvider
          ("Failed to deserialize Anthropic response: " ++ e))
      | Except.ok messages_response =>
        match messages_response.content.head?.map (fun c => c.text) with
        | some text => Except.ok text
        | none => Except.error (AgentError.LLMProvider
            "Anthropic response contained no content")

/-- Request assembly of `send_message` (mod.rs lines 92-101): convert the
messages, then build the `MessagesRequest` from the provider's
configuration. -/
def assembleRequest (p : AnthropicProvider) (messages : List Message) : MessagesRequest :=
  let converted := convert_messages messages
  { model := p.model
    messages := converted.2
    system := converted.1
    temperature := p.temperature
    max_tokens := p.max_tokens }

/-- Trace of one `send_message` invocation: the outbound requests issued,
in order, and the returned result. -/
structure SendTrace where
  requests : List MessagesRequest
  result : Except AgentError String

/-- `AnthropicProvider::send_message` (mod.rs lines 90-158). The transport
collaborator is an oracle from the serialized request to the outcome of the
single `send().await`; the trace records that exactly this one outbound
request was issued before the outcome is translated by `handleOutcome`. -/
def send_message (p : AnthropicProvider) (messages : List Message)
    (transport : MessagesRequest → HttpResult) : SendTrace :=
  let request := assembleRequest p messages
  { requests := [request]
    result := handleOutcome (transport request) }

/-- Serialized field list of a `MessagesRequest`, mirroring the serde
derive on `src/llm/src/anthropic/types.rs` lines 14-22: fields in
declaration order, with `system` skipped exactly when it is `None`. -/
def requestFields (r : MessagesRequest) : List String :=
  ["model", "messages"]
    ++ (if r.system.isSome then ["system"] else [])
    ++ ["temperature", "max_tokens"]

/-! ## Spec-side definitions

These follow the wording of the specification (its §4.3 and §8 bullets) and
are compared against the source-derived functions above. -/

/-- Spec wording: the contents of the System-role messages of a sequence,
in encounter order. -/
def systemContents (messages : List Message) : List String :=
  (messages.filter (fun m => m.role.isSystem)).map (fun m => m.content)

/-- Spec wording: texts "concatenated (joined by a blank line)". -/
def joinBlank : List String → String
  | [] => ""
  | [c] => c
  | c :: c2 :: rest => c ++ "\n\n" ++ joinBlank (c2 :: rest)

/-- Spec wording: the single backend-level system field — present with the
blank-line join of the System contents when there is at least one System
message, omitted otherwise. -/
def systemField (messages : List Message) : Option String :=
  match systemContents messages with
  | [] => none
  | c :: rest => some (joinBlank (c :: rest))

/-- Spec wording: the backend turn a non-system message maps to "1:1,
preserving role (User/Assistant) and content verbatim" (turn translation,
§4.3). The System case never arises under the non-system filter; it is
given the literal role name so the function is total. -/
def turnOf (m : Message) : AnthropicMessage :=
  match m.role with
  | Role.System => { role := "system", content := m.content }
  | Role.User => { role := "user", content := m.content }
  | Role.Assistant => { role := "assistant", content := m.content }

/-- How the loop accumulates the system text: fold the push-append step of
mod.rs lines 69-74 over the System contents. -/
def combineSys : Option String → List String → Option String
  | sys, [] => sys
  | some existing, c :: rest => combineSys (some (existing ++ "\n\n" ++ c)) rest
  | none, c :: rest => combineSys (some c) rest

/-! ## Characterization of `convert_messages` -/

theorem combineSys_some (s : String) (cs : List String) :
    combineSys (some s) cs = some (joinBlank (s :: cs)) := by
  induction cs generalizing s with
  | nil => simp [combineSys, joinBlank]
  | cons c rest ih =>
    cases rest with
    | nil => simp [combineSys, joinBlank]
    | cons c2 rest2 =>
      rw [combineSys, ih]
      simp [joinBlank, String.append_assoc]

theorem combineSys_none (cs : List String) :
    combineSys none cs =
      (match cs with
       | [] => none
       | c :: rest => some (joinBlank (c :: rest))) := by
  cases cs with
  | nil => rfl
  | cons c rest => rw [combineSys, combineSys_some]

theorem convertMessagesLoop_eq (messages : List Message) :
    ∀ (sys : Option String) (acc : List AnthropicMessage),
      convertMessagesLoop sys acc messages =
        (combineSys sys (systemContents messages),
         acc ++ messages.filterMap convert_message) := by
  induction messages with
  | nil => intro sys acc; simp [convertMessagesLoop, combineSys, systemContents]
  | cons m rest ih =>
    intro sys acc
    cases hr : m.role with
    | System =>
      have hcm : convert_message m = none := by
        rw [convert_message, hr]
      simp only [convertMessagesLoop, hr]
      cases sys with
      | none =>
        rw [ih]
        simp [systemContents, List.filter, hr, Role.isSystem, combineSys, hcm,
          List.filterMap_cons]
      | some existing =>
        rw [ih]
        simp [systemContents, List.filter, hr, Role.isSystem, combineSys, hcm,
          List.filterMap_cons]
    | User =>
      have hcm : convert_message m = some { role := "user", content := m.content } := by
        rw [convert_message, hr]
      simp only [convertMessagesLoop, hr, hcm]
      rw [ih]
      simp [systemContents, List.filter, hr, Role.isSystem, List.filterMap_cons, hcm]
    | Assistant =>
      have hcm : convert_message m = some { role := "assistant", content := m.content } := by
        rw [convert_message, hr]
      simp only [convertMessagesLoop, hr, hcm]
      rw [ih]
      simp [systemContents, List.filter, hr, Role.isSystem, List.filterMap_cons, hcm]

theorem convert_messages_fst (messages : List Message) :
    (convert_messages messages).1 = systemField messages := by
  rw [convert_messages, convertMessagesLoop_eq, combineSys_none, systemField]

theorem filterMap_convert_message (messages : List Message) :
    messages.filterMap convert_message =
      (messages.filter (fun m => !m.role.isSystem)).map turnOf := by
  induction messages with
  | nil => rfl
  | cons m rest ih =>
    cases hr : m.role with
    | System =>
      simp [List.filterMap_cons, convert_message, hr, List.filter, Role.isSystem, ih]
    | User =>
      simp [List.filterMap_cons, convert_message, hr, List.filter, Role.isSystem, ih, turnOf]
    | Assistant =>
      simp [List.filterMap_cons, convert_message, hr, List.filter, Role.isSystem, ih, turnOf]

theorem convert_messages_snd (messages : List Message) :
    (convert_messages messages).2 =
      (messages.filter (fun m => !m.role.isSystem)).map turnOf := by
  rw [convert_messages, convertMessagesLoop_eq, ← filterMap_convert_message]
  simp

/-! ## The spec's error taxonomy and the adapter's error shapes -/

/-- Modelled from the spec: the closed error taxonomy of §7
(`error.rs` of `agent_core` is not among the sources). The spec's
`HttpFailure(status, body)` payload is carried inside the error's message
text in this embedding, so the kinds here are payload-free tags. -/
inductive ErrorKind where
  | Timeout
  | ConnectionFailure
  | AuthenticationFailure
  | RateLimitExceeded
  | HttpFailure
  | DeserializationFailure
  | EmptyResponse
deriving DecidableEq, Repr

/-- Character-level prefix test: does the first list open the second? -/
def charsOpen : List Char → List Char → Bool
  | [], _ => true
  | _ :: _, [] => false
  | c :: cs, d :: ds => c == d && charsOpen cs ds

/-- Does the string `p` open the string `s` (is `s` of the form
`p ++ rest`)? -/
def strOpens (p s : String) : Bool :=
  charsOpen p.data s.data

/-- Classify an adapter error into the spec's taxonomy by the
cause-specific message text the adapter wrote into the single
`LLMProvider` variant — the only way the adapter's failure causes are
distinguishable. `none` for the generic transport failure of mod.rs line
127, which has no counterpart in the taxonomy, and for non-adapter
errors. -/
def classify : AgentError → Option ErrorKind
  | AgentError.LLMProvider m =>
    if strOpens "Anthropic API request timeout: " m then
      some ErrorKind.Timeout
    else if strOpens "Anthropic API connection error: " m then
      some ErrorKind.ConnectionFailure
    else if m = "Anthropic API authentication failed: Invalid API key" then
      some ErrorKind.AuthenticationFailure
    else if m = "Anthropic API rate limit exceeded" then
      some ErrorKind.RateLimitExceeded
    else if strOpens "Anthropic API HTTP " m then
      some ErrorKind.HttpFailure
    else if strOpens "Failed to deserialize Anthropic response: " m then
      some ErrorKind.DeserializationFailure
    else if m = "Anthropic response contained no content" then
      some ErrorKind.EmptyResponse
    else none
  | AgentError.otherVariant _ => none

theorem mapSendError_isLLMProvider (te : TransportError) :
    (mapSendError te).isLLMProvider = true := by
  rw [mapSendError]
  split
  · rfl
  · split
    · rfl
    · split
      · rfl
      · split
        · rfl
        · rfl

theorem handleOutcome_shape (outcome : HttpResult) :
    (∃ reply, handleOutcome outcome = Except.ok reply) ∨
    (∃ m, handleOutcome outcome = Except.error (AgentError.LLMProvider m)) := by
  cases outcome with
  | transportError te =>
    right
    rw [handleOutcome, mapSendError]
    split
    · exact ⟨_, rfl⟩
    · split
      · exact ⟨_, rfl⟩
      · split
        · exact ⟨_, rfl⟩
        · split
          · exact ⟨_, rfl⟩
          · exact ⟨_, rfl⟩
  | response r =>
    rw [handleOutcome]
    split
    · right; exact ⟨_, rfl⟩
    · split
      · right; exact ⟨_, rfl⟩
      · split
        · left; exact ⟨_, rfl⟩
        · right; exact ⟨_, rfl⟩

/-! ## Claim theorems -/

/-- Claim C3: for every input message sequence, `convert_messages` removes
every System-role message from the translated turn list — the turn list
holds exactly the non-System messages' turns — and concatenates the System
messages' contents, joined by a blank line, in encounter order, into the
single optional system field. -/
theorem C3_system_extraction (messages : List Message) :
    (convert_messages messages).1 = systemField messages ∧
    (convert_messages messages).2 =
      (messages.filter (fun m => !m.role.isSystem)).map turnOf :=
  ⟨convert_messages_fst messages, convert_messages_snd messages⟩

/-- Claim C4: for every input message sequence, the translated turn list
has exactly one entry per non-System input message, in the original order,
whose role string and content match the input message at the same position
verbatim. -/
theorem C4_turn_translation (messages : List Message) :
    (convert_messages messages).2 =
      (messages.filter (fun m => !m.role.isSystem)).map turnOf ∧
    (convert_messages messages).2.length =
      (messages.filter (fun m => !m.role.isSystem)).length := by
  refine ⟨convert_messages_snd messages, ?_⟩
  rw [convert_messages_snd messages, List.length_map]

/-- A role distinct from System is not classified as System. -/
theorem Role.isSystem_eq_false {r : Role} (h : r ≠ Role.System) :
    r.isSystem = false := by
  cases r with
  | System => exact absurd rfl h
  | User => rfl
  | Assistant => rfl

/-- Claim C5: for every input message sequence containing no System-role
message, the system field of the assembled request is `none`, and hence —
by the serde skip rule mirrored by `requestFields` — absent from the
serialized request the single outbound call carries. -/
theorem C5_system_omitted (p : AnthropicProvider) (messages : List Message)
    (transport : MessagesRequest → HttpResult)
    (h : ∀ m ∈ messages, m.role ≠ Role.System) :
    (assembleRequest p messages).system = none ∧
    "system" ∉ requestFields (assembleRequest p messages) ∧
    (send_message p messages transport).requests = [assembleRequest p messages] := by
  have hfilter : messages.filter (fun m => m.role.isSystem) = [] := by
    rw [List.filter_eq_nil_iff]
    intro m hm
    rw [Role.isSystem_eq_false (h m hm)]
    exact Bool.false_ne_true
  have hsys : (assembleRequest p messages).system = none := by
    show (convert_messages messages).1 = none
    rw [convert_messages_fst, systemField, systemContents, hfilter]
    rfl
  refine ⟨hsys, ?_, rfl⟩
  rw [requestFields, hsys]
  decide

/-- Witness for C5 at a concrete System-free input. -/
theorem C5_system_omitted_witness :
    (∀ m ∈ [Message.mk Role.User "hi", Message.mk Role.Assistant "yo"],
      m.role ≠ Role.System) ∧
    (assembleRequest ⟨"key", "model-x", 1.0, 100, 30000⟩
      [Message.mk Role.User "hi", Message.mk Role.Assistant "yo"]).system = none :=
  ⟨by decide,
   (C5_system_omitted ⟨"key", "model-x", 1.0, 100, 30000⟩
     [Message.mk Role.User "hi", Message.mk Role.Assistant "yo"]
     (fun _ => HttpResult.transportError ⟨true, false, none, "t"⟩)
     (by decide)).1⟩

/-- Claim C8: every invocation of `send_message` issues exactly one
outbound request — the assembled one — whatever the transport outcome is;
in particular no failure leads to a second request. -/
theorem C8_single_request (p : AnthropicProvider) (messages : List Message)
    (transport : MessagesRequest → HttpResult) :
    (send_message p messages transport).requests = [assembleRequest p messages] ∧
    (send_message p messages transport).requests.length = 1 :=
  ⟨rfl, rfl⟩

/-- Claim C9: for the empty input sequence, `convert_messages` yields no
system field and an empty turn list, and `send_message` still assembles a
request with an empty messages array and hands it to the transport — its
result is the translation of the transport's outcome, not a local
pre-call error. -/
theorem C9_empty_input (p : AnthropicProvider)
    (transport : MessagesRequest → HttpResult) :
    convert_messages [] = (none, []) ∧
    (assembleRequest p []).messages = [] ∧
    (assembleRequest p []).system = none ∧
    (send_message p [] transport).requests = [assembleRequest p []] ∧
    (send_message p [] transport).result =
      handleOutcome (transport (assembleRequest p [])) :=
  ⟨rfl, rfl, rfl, rfl, rfl⟩

/-- Claim C10: whenever the input holds at least one System-role message
the system field is present, even if every System content is empty; in
particular two System messages with empty content give `some "\n\n"`. -/
theorem C10_system_present (messages : List Message)
    (h : ∃ m ∈ messages, m.role = Role.System) :
    (convert_messages messages).1.isSome = true ∧
    (convert_messages [Message.mk Role.System "", Message.mk Role.System ""]).1 =
      some "\n\n" := by
  refine ⟨?_, by decide⟩
  obtain ⟨m, hm, hrole⟩ := h
  have hmem : m.content ∈ systemContents messages := by
    rw [systemContents]
    exact List.mem_map_of_mem _ (List.mem_filter.mpr ⟨hm, by rw [hrole]; rfl⟩)
  rw [convert_messages_fst, systemField]
  cases hsc : systemContents messages with
  | nil => rw [hsc] at hmem; exact absurd hmem (List.not_mem_nil _)
  | cons c rest => rfl

/-- Witness for C10 at a concrete input holding a System message. -/
theorem C10_system_present_witness :
    (∃ m ∈ [Message.mk Role.System "be concise", Message.mk Role.User "hi"],
      m.role = Role.System) ∧
    (convert_messages [Message.mk Role.System "be concise",
      Message.mk Role.User "hi"]).1.isSome = true :=
  ⟨by decide,
   (C10_system_present [Message.mk Role.System "be concise",
     Message.mk Role.User "hi"] (by decide)).1⟩

/-- Claim C1 (amended): every failure of `send_message` is returned
through the one generic `LLMProvider` constructor; distinct failure causes
are distinguished only by the message string it carries, not by the error
variant. -/
theorem C1_single_generic_variant (p : AnthropicProvider)
    (messages : List Message) (transport : MessagesRequest → HttpResult)
    (e : AgentError)
    (h : (send_message p messages transport).result = Except.error e) :
    e.isLLMProvider = true := by
  have hres : (send_message p messages transport).result =
      handleOutcome (transport (assembleRequest p messages)) := rfl
  rw [hres] at h
  rcases handleOutcome_shape (transport (assembleRequest p messages)) with
    ⟨reply, hok⟩ | ⟨m, herr⟩
  · rw [hok] at h
    exact absurd h (by intro hc; cases hc)
  · rw [herr] at h
    have hme : AgentError.LLMProvider m = e := Except.error.inj h
    rw [← hme]
    rfl

/-- Witness for the amended C1 at a concrete timeout failure. -/
theorem C1_single_generic_variant_witness :
    (send_message ⟨"key", "model-x", 1.0, 100, 30000⟩ [Message.mk Role.User "hi"]
        (fun _ => HttpResult.transportError ⟨true, false, none, "deadline"⟩)).result =
      Except.error (AgentError.LLMProvider
        "Anthropic API request timeout: deadline") ∧
    (AgentError.LLMProvider "Anthropic API request timeout: deadline").isLLMProvider
      = true :=
  have h : (send_message ⟨"key", "model-x", 1.0, 100, 30000⟩
      [Message.mk Role.User "hi"]
      (fun _ => HttpResult.transportError ⟨true, false, none, "deadline"⟩)).result =
        Except.error (AgentError.LLMProvider
          "Anthropic API request timeout: deadline") := rfl
  ⟨h, C1_single_generic_variant _ _ _ _ h⟩

/-- Counterexample to C1 as stated: two distinct failure causes — a
transport timeout and a transport connect failure — both come back through
the same single `LLMProvider` constructor, differing only in their message
strings, so the causes are collapsed into one generic error variant rather
than mapped to distinct kinds a caller could branch on. -/
theorem C1_counterexample :
    (send_message ⟨"key", "model-x", 1.0, 100, 30000⟩ [Message.mk Role.User "hi"]
        (fun _ => HttpResult.transportError ⟨true, false, none, "deadline"⟩)).result =
      Except.error (AgentError.LLMProvider
        "Anthropic API request timeout: deadline") ∧
    (send_message ⟨"key", "model-x", 1.0, 100, 30000⟩ [Message.mk Role.User "hi"]
        (fun _ => HttpResult.transportError ⟨false, true, none, "refused"⟩)).result =
      Except.error (AgentError.LLMProvider
        "Anthropic API connection error: refused") ∧
    (AgentError.LLMProvider "Anthropic API request timeout: deadline").isLLMProvider =
      (AgentError.LLMProvider "Anthropic API connection error: refused").isLLMProvider ∧
    AgentError.LLMProvider "Anthropic API request timeout: deadline" ≠
      AgentError.LLMProvider "Anthropic API connection error: refused" :=
  ⟨rfl, rfl, rfl, by decide⟩

set_option maxRecDepth 100000

/-- Claim C2, evaluated at the failing input: a received HTTP 401 response
does not produce the authentication-specific error — it falls into the
generic non-success branch of mod.rs lines 132-143 and classifies as an
HTTP failure, because the dedicated 401/429 arms (mod.rs lines 122-125)
live in the transport-error closure, which a received response never
enters. A received 429 behaves the same way. -/
theorem C2_received_401_generic :
    (send_message ⟨"key", "model-x", 1.0, 100, 30000⟩ [Message.mk Role.User "hi"]
        (fun _ => HttpResult.response ⟨401, some "body", Except.error "unread"⟩)).result =
      Except.error (AgentError.LLMProvider
        "Anthropic API HTTP 401 Unauthorized error: body") ∧
    classify (AgentError.LLMProvider
      "Anthropic API HTTP 401 Unauthorized error: body") = some ErrorKind.HttpFailure ∧
    classify (AgentError.LLMProvider
      "Anthropic API HTTP 401 Unauthorized error: body") ≠
        some ErrorKind.AuthenticationFailure ∧
    (send_message ⟨"key", "model-x", 1.0, 100, 30000⟩ [Message.mk Role.User "hi"]
        (fun _ => HttpResult.response ⟨429, some "body", Except.error "unread"⟩)).result =
      Except.error (AgentError.LLMProvider
        "Anthropic API HTTP 429 Too Many Requests error: body") ∧
    classify (AgentError.LLMProvider
      "Anthropic API HTTP 429 Too Many Requests error: body") ≠
        some ErrorKind.RateLimitExceeded := by
  refine ⟨rfl, by decide, by decide, rfl, by decide⟩

/-- Claim C6: for every successfully parsed backend response whose content
list is non-empty, `send_message` returns exactly the text of the first
content item. -/
theorem C6_first_content (p : AnthropicProvider) (messages : List Message)
    (s : Nat) (t : Option String) (mr : MessagesResponse)
    (c : ContentBlock) (rest : List ContentBlock)
    (hs : isSuccessStatus s = true) (hc : mr.content = c :: rest) :
    (send_message p messages
        (fun _ => HttpResult.response ⟨s, t, Except.ok mr⟩)).result =
      Except.ok c.text := by
  have hres : (send_message p messages
      (fun _ => HttpResult.response ⟨s, t, Except.ok mr⟩)).result =
        handleOutcome (HttpResult.response ⟨s, t, Except.ok mr⟩) := rfl
  rw [hres, handleOutcome]
  simp [hs, hc]

/-- Witness for C6: a 200 response with two content blocks returns the
first block's text only. -/
theorem C6_first_content_witness :
    isSuccessStatus 200 = true ∧
    (send_message ⟨"key", "model-x", 1.0, 100, 30000⟩ [Message.mk Role.User "hi"]
        (fun _ => HttpResult.response ⟨200, none,
          Except.ok ⟨"msg-id", "message", "assistant",
            [⟨"text", "hello"⟩, ⟨"text", "ignored"⟩], "model-x", some "end_turn"⟩⟩)).result =
      Except.ok "hello" :=
  ⟨rfl, C6_first_content _ _ 200 none _ ⟨"text", "hello"⟩ [⟨"text", "ignored"⟩] rfl rfl⟩

/-- Claim C7: for every successfully parsed backend response whose content
list is empty, `send_message` returns the error specific to an empty
response — which classifies as the spec's `EmptyResponse` kind — and never
a successful text result; the extraction is total, so no panic is
possible. -/
theorem C7_empty_response (p : AnthropicProvider) (messages : List Message)
    (s : Nat) (t : Option String) (mr : MessagesResponse)
    (hs : isSuccessStatus s = true) (hc : mr.content = []) :
    (send_message p messages
        (fun _ => HttpResult.response ⟨s, t, Except.ok mr⟩)).result =
      Except.error (AgentError.LLMProvider
        "Anthropic response contained no content") ∧
    classify (AgentError.LLMProvider "Anthropic response contained no content") =
      some ErrorKind.EmptyResponse ∧
    ∀ reply, (send_message p messages
        (fun _ => HttpResult.response ⟨s, t, Except.ok mr⟩)).result ≠
      Except.ok reply := by
  have hres : (send_message p messages
      (fun _ => HttpResult.response ⟨s, t, Except.ok mr⟩)).result =
        Except.error (AgentError.LLMProvider
          "Anthropic response contained no content") := by
    have h0 : (send_message p messages
        (fun _ => HttpResult.response ⟨s, t, Except.ok mr⟩)).result =
          handleOutcome (HttpResult.response ⟨s, t, Except.ok mr⟩) := rfl
    rw [h0, handleOutcome]
    simp [hs, hc]
  refine ⟨hres, by decide, ?_⟩
  intro reply
  rw [hres]
  intro hcontra
  cases hcontra

/-- Witness for C7: a 200 response with an empty content list yields the
no-content error. -/
theorem C7_empty_response_witness :
    isSuccessStatus 200 = true ∧
    (send_message ⟨"key", "model-x", 1.0, 100, 30000⟩ [Message.mk Role.User "hi"]
        (fun _ => HttpResult.response ⟨200, none,
          Except.ok ⟨"msg-id", "message", "assistant", [], "model-x",
            some "end_turn"⟩⟩)).result =
      Except.error (AgentError.LLMProvider
        "Anthropic response contained no content") :=
  ⟨rfl, (C7_empty_response _ _ 200 none _ rfl rfl).1⟩
